import Mathlib

/-!
Shallow embedding of the LARS AI backend (`src/back.py`) report-generation
and delivery pipeline, together with theorems settling the specification
claims about it.

External effects are made explicit:
* the news provider's response is a `List Article` argument;
* "now" (the current month/year string) is a `String` argument;
* the external text-generation process outcome is a `ProcResult` argument;
* the mail transport is a function `Nat → Bool` giving each attempt's success;
* the subscriptions file is an `Option (List Subscription)` state value
  (`none` = file absent), threaded through endpoints.
-/

namespace LarsBackend

/-- Embeds Python `str.strip()`: drop leading and trailing whitespace. -/
def stripPy (s : String) : String :=
  String.mk (((s.data.dropWhile Char.isWhitespace).reverse.dropWhile Char.isWhitespace).reverse)

/-- Embeds Python `str.lower()` (ASCII case folding suffices for the keyword sets used). -/
def toLowerPy (s : String) : String :=
  String.mk (s.data.map Char.toLower)

/-- Helper for Python's `needle in hay` substring test, on character lists. -/
def hasSubstr (needle : List Char) : List Char → Bool
  | [] => needle.isEmpty
  | c :: rest => needle.isPrefixOf (c :: rest) || hasSubstr needle rest

/-- Embeds Python `needle in hay` for strings (substring containment). -/
def containsKw (hay needle : String) : Bool :=
  hasSubstr needle.data hay.data

/-- Whether `p` is an initial segment of `s` ("the string begins with p"). -/
def beginsWith (s p : String) : Bool :=
  p.data.isPrefixOf s.data

/-- Embeds Python `sep.join(xs)`. -/
def joinPy (sep : String) : List String → String
  | [] => ""
  | [x] => x
  | x :: y :: rest => x ++ sep ++ joinPy sep (y :: rest)

/-- Split a character list into its newline-separated lines (Python `split("\n")`). -/
def splitOnNl : List Char → List (List Char)
  | [] => [[]]
  | c :: rest =>
    if c = '\n' then [] :: splitOnNl rest
    else
      match splitOnNl rest with
      | [] => [[c]]
      | g :: gs => (c :: g) :: gs

/-- Rejoin lines with newlines (inverse of `splitOnNl`). -/
def joinNl : List (List Char) → List Char
  | [] => []
  | [l] => l
  | l :: l2 :: rest => l ++ '\n' :: joinNl (l2 :: rest)

/-- Longest common prefix of two character lists. -/
def commonPrefix : List Char → List Char → List Char
  | a :: as, b :: bs => if a = b then a :: commonPrefix as bs else []
  | _, _ => []

/-- A space or tab, the characters `textwrap.dedent` treats as indentation. -/
def isIndentChar (c : Char) : Bool :=
  c = ' ' || c = '\t'

/-- Embeds `textwrap.dedent`: whitespace-only lines are normalized to empty,
the margin is the longest common space/tab prefix of the remaining non-empty
lines, and that margin is removed from the start of every line bearing it.
In back.py it runs after f-string interpolation, so interpolated text with
unindented lines collapses the margin to nothing. -/
def pyDedent (s : String) : String :=
  let lines := (splitOnNl s.data).map fun l =>
    if l ≠ [] ∧ l.all isIndentChar then [] else l
  let indents := (lines.filter fun l => l ≠ []).map fun l => l.takeWhile isIndentChar
  match indents with
  | [] => String.mk (joinNl lines)
  | i0 :: rest =>
    let margin := rest.foldl commonPrefix i0
    String.mk (joinNl (lines.map fun l =>
      if margin.isPrefixOf l then l.drop margin.length else l))

/-- Embeds `strftime("%B")` month names. -/
def monthName : Nat → String
  | 1 => "January"
  | 2 => "February"
  | 3 => "March"
  | 4 => "April"
  | 5 => "May"
  | 6 => "June"
  | 7 => "July"
  | 8 => "August"
  | 9 => "September"
  | 10 => "October"
  | 11 => "November"
  | 12 => "December"
  | _ => ""

/-- Gregorian leap-year rule, as used by `datetime` for day-of-month validation. -/
def isLeapYear (y : Nat) : Bool :=
  (y % 4 == 0 && y % 100 != 0) || (y % 400 == 0)

/-- Number of days in a month, as validated by `datetime.strptime`. -/
def daysInMonth (y m : Nat) : Nat :=
  if m = 2 then (if isLeapYear y then 29 else 28)
  else if m = 4 ∨ m = 6 ∨ m = 9 ∨ m = 11 then 30
  else 31

/-- Split a character list on the dash separator (for the `%Y-%m-%d` format). -/
def splitOnDash : List Char → List (List Char)
  | [] => [[]]
  | c :: rest =>
    if c = '-' then [] :: splitOnDash rest
    else
      match splitOnDash rest with
      | [] => [[c]]
      | g :: gs => (c :: g) :: gs

/-- Decimal value of a digit list. -/
def digitsToNat (l : List Char) : Nat :=
  l.foldl (fun acc c => acc * 10 + (c.toNat - 48)) 0

/-- The `%d` token of `strptime`: two digits, one digit, or a space followed
by a nonzero digit (CPython's day pattern admits a space-padded day). -/
def dayTokenOk (ds : List Char) : Bool :=
  (decide (ds ≠ []) && decide (ds.length ≤ 2) && ds.all Char.isDigit) ||
  (match ds with
   | [' ', c] => c.isDigit && c != '0'
   | _ => false)

/-- Numeric value of a day token, ignoring the optional space padding. -/
def dayValue (ds : List Char) : Nat :=
  digitsToNat (ds.filter Char.isDigit)

/-- Embeds `datetime.strptime(published_at[:10], "%Y-%m-%d").strftime("%B %Y")`:
the first ten characters must be year-month-day where `%Y` is exactly 4 digits,
`%m` is 1-2 digits with value 1..12, and `%d` is 1-2 digits or a space-padded
single nonzero digit; the year must be at least 1 and the day valid for that
month. Success yields "{month name} {year}", failure models the raised
`ValueError`. -/
def parseMonthYear (s : String) : Except String String :=
  let s10 := s.data.take 10
  let shown := String.mk s10
  match splitOnDash s10 with
  | [ys, ms, ds] =>
    if ys.length = 4 ∧ ys.all Char.isDigit ∧
       ms ≠ [] ∧ ms.length ≤ 2 ∧ ms.all Char.isDigit ∧
       dayTokenOk ds = true then
      let y := digitsToNat ys
      let m := digitsToNat ms
      let d := dayValue ds
      if 1 ≤ m ∧ m ≤ 12 then
        if y = 0 then Except.error "year 0 is out of range"
        else if 1 ≤ d ∧ d ≤ daysInMonth y m then
          Except.ok (monthName m ++ " " ++ toString y)
        else Except.error "day is out of range for month"
      else Except.error ("time data '" ++ shown ++ "' does not match format '%Y-%m-%d'")
    else Except.error ("time data '" ++ shown ++ "' does not match format '%Y-%m-%d'")
  | _ => Except.error ("time data '" ++ shown ++ "' does not match format '%Y-%m-%d'")

/-- One article as consumed from the news provider: `title`, `source.name`,
`publishedAt` (back.py lines 62-64). -/
structure Article where
  title : String
  source : String
  publishedAt : String
deriving DecidableEq, Repr

/-- Embeds the classification `if/elif` chain of `fetch_recent_trends`
(back.py lines 66-76): case-insensitive keyword scan, first match wins. -/
def bulletFor (domain role source pmY title : String) : String :=
  let tl := toLowerPy title
  if (["study", "research", "paper", "report"].any fun k => containsKw tl k) then
    "A study published in " ++ source ++ " in " ++ pmY ++ " demonstrated: " ++ title ++ "."
  else if (["launch", "released", "introduced", "approved"].any fun k => containsKw tl k) then
    "In " ++ pmY ++ ", " ++ source ++ " launched: " ++ title ++ ", impacting " ++ domain ++ "/" ++ role ++ "."
  else if (["trending", "viral", "popular", "#"].any fun k => containsKw tl k) then
    "Trending on social media: " ++ title ++ " is gaining attention among " ++ domain ++ "/" ++ role ++ "."
  else if (["conference", "webinar", "workshop", "summit", "event"].any fun k => containsKw tl k) then
    "Upcoming in " ++ pmY ++ ": " ++ title ++ ", relevant to " ++ role ++ "/" ++ domain ++ "."
  else
    title ++ " (" ++ source ++ ", " ++ pmY ++ ")"

/-- The four prioritized keyword sets of the classifier, in source order. -/
def keywordSets : List (List String) :=
  [["study", "research", "paper", "report"],
   ["launch", "released", "introduced", "approved"],
   ["trending", "viral", "popular", "#"],
   ["conference", "webinar", "workshop", "summit", "event"]]

/-- Whether the title matches keyword set `i` (case-insensitive containment). -/
def matchesSet (i : Nat) (title : String) : Bool :=
  (keywordSets.getD i []).any fun k => containsKw (toLowerPy title) k

/-- The phrasing template of keyword set `i` (4 and above = the generic fallback). -/
def renderTemplate (i : Nat) (domain role source pmY title : String) : String :=
  match i with
  | 0 => "A study published in " ++ source ++ " in " ++ pmY ++ " demonstrated: " ++ title ++ "."
  | 1 => "In " ++ pmY ++ ", " ++ source ++ " launched: " ++ title ++ ", impacting " ++ domain ++ "/" ++ role ++ "."
  | 2 => "Trending on social media: " ++ title ++ " is gaining attention among " ++ domain ++ "/" ++ role ++ "."
  | 3 => "Upcoming in " ++ pmY ++ ": " ++ title ++ ", relevant to " ++ role ++ "/" ++ domain ++ "."
  | _ => title ++ " (" ++ source ++ ", " ++ pmY ++ ")"

/-- One classified bullet for one article, propagating the date-parse failure
(back.py line 65) as the exception it raises in Python. -/
def mkBulletE (domain role : String) (a : Article) : Except String String :=
  (parseMonthYear a.publishedAt).map fun pmY => bulletFor domain role a.source pmY a.title

/-- The article loop of `fetch_recent_trends` (back.py lines 61-76): classify
each article in order; the first date-parse failure aborts the loop with the
raised error, discarding every bullet built so far. -/
def mapBullets (domain role : String) : List Article → Except String (List String)
  | [] => Except.ok []
  | a :: rest =>
    match mkBulletE domain role a with
    | Except.error e => Except.error e
    | Except.ok b =>
      match mapBullets domain role rest with
      | Except.error e => Except.error e
      | Except.ok bs => Except.ok (b :: bs)

/-- The `try` body of `fetch_recent_trends` (back.py lines 56-79): header plus
one bullet per article, joined; empty article list short-circuits. -/
def fetchTrendsBody (domain role now : String) (articles : List Article) : Except String String :=
  if articles.isEmpty then Except.ok "No recent news found."
  else
    match mapBullets domain role articles with
    | Except.error e => Except.error e
    | Except.ok bullets =>
      Except.ok ("\n- " ++ joinPy "\n- " (("Insights as of " ++ now ++ ":\n") :: bullets))

/-- Embeds `fetch_recent_trends` (back.py lines 43-81), with the provider's
article list and the current month/year string made explicit arguments; the
outer `except` turns any raised error into the descriptive string result. -/
def fetch_recent_trends (domain role now : String) (articles : List Article) : String :=
  match fetchTrendsBody domain role now articles with
  | Except.ok s => s
  | Except.error e => "Error fetching trends: " ++ e

/-- Outcome of the external `subprocess.run(["ollama", "run", model], ...)` call. -/
inductive ProcResult where
  | completed (returncode : Int) (stdout stderr : String)
  | timeoutExpired
  | fileNotFound
  | otherError (msg : String)
deriving DecidableEq, Repr

/-- Embeds `generate_response_with_ollama` (back.py lines 83-107): total on
every process outcome, each failure mode becoming report text. -/
def generate_response_with_ollama : ProcResult → String
  | ProcResult.completed rc out _err =>
    if rc ≠ 0 then "" else stripPy out
  | ProcResult.timeoutExpired => "⚠️ Timeout reached — model took too long to respond."
  | ProcResult.fileNotFound => "❌ Error: 'ollama' not found. Make sure Ollama is installed and running."
  | ProcResult.otherError e => "⚠️ Unexpected error: " ++ e

/-- Inner loop of `send_email` (back.py lines 122-132): walk the attempt
indices of `range(2)`, returning on the first success; the second component
counts transport attempts actually made. -/
def sendEmailGo (transport : Nat → Bool) (made : Nat) : List Nat → Bool × Nat
  | [] => (false, made)
  | a :: rest =>
    if transport a then (true, made + 1)
    else sendEmailGo transport (made + 1) rest

/-- Embeds `send_email` (back.py lines 111-132) against an abstract transport
given per-attempt success; returns (result, number of transport attempts). -/
def send_email (transport : Nat → Bool) : Bool × Nat :=
  sendEmailGo transport 0 (List.range 2)

/-- One persisted subscriber record (back.py line 289). -/
structure Subscription where
  email : String
  phone : String
  domain : String
  role : String
deriving DecidableEq, Repr

/-- Reading the subscriptions file: absent file yields the empty sequence
(back.py lines 284-287). -/
def loadSubs : Option (List Subscription) → List Subscription
  | none => []
  | some subs => subs

/-- The load-modify-save of `subscribe` (back.py lines 284-293): read the whole
file (or start empty), append one record, rewrite the whole file. -/
def appendSub (store : Option (List Subscription)) (sub : Subscription) : Option (List Subscription) :=
  some (loadSubs store ++ [sub])

/-- One call handed to the mail transport: recipient, subject, HTML body. -/
structure EmailCall where
  toAddr : String
  subject : String
  html : String
deriving DecidableEq, Repr

/-- The weekly-digest prompt of `send_weekly_updates` (back.py lines 163-170):
the interpolated 12-space-indented f-string, then `textwrap.dedent` — which
runs after interpolation, so multi-line trend text with unindented lines
leaves the indentation in place. -/
def weeklyPrompt (domain role trends : String) : String :=
  pyDedent
    ("\n            Generate a concise weekly intelligence update for a " ++ role ++
     " in the " ++ domain ++ " domain.\n" ++
     "            Include:\n" ++
     "            - Key trends this week (" ++ trends ++ ")\n" ++
     "            - New tools or frameworks\n" ++
     "            - Notable AI or automation use cases\n" ++
     "            - Skills or courses worth learning\n            ")

/-- The weekly HTML wrapper of `send_weekly_updates` (back.py lines 174-181):
a plain f-string, never dedented, so the 12-space line indents remain. -/
def weeklyHtml (domain role rpt : String) : String :=
  "\n            <h2>Your Weekly LARS AI Update 🌐</h2>\n" ++
  "            <p>Here’s your latest " ++ domain ++ " / " ++ role ++ " update:</p>\n" ++
  "            <pre style=\"background:#f9f9f9;padding:12px;border-radius:8px;white-space:pre-wrap;\">\n" ++
  "            " ++ rpt ++ "\n" ++
  "            </pre>\n" ++
  "            <p>Stay smart, stay ahead — LARS AI 🚀</p>\n            "

/-- The per-subscriber pipeline of one weekly run (back.py lines 159-182):
fetch trends, compose the weekly prompt, generate the report, wrap as HTML,
and emit the delivery call. -/
def mkWeeklyCall (fetch : String → String → String) (gen : String → String)
    (sub : Subscription) : EmailCall :=
  let trends := fetch sub.domain sub.role
  let rpt := gen (weeklyPrompt sub.domain sub.role trends)
  { toAddr := sub.email
    subject := "Weekly " ++ sub.domain ++ " / " ++ sub.role ++ " Intelligence Update"
    html := weeklyHtml sub.domain sub.role rpt }

/-- The subscription loop of `send_weekly_updates` (back.py lines 151-182):
records with an empty (or missing, modeled as empty) email, domain or role are
skipped with `continue`; every other record produces one delivery call, in
iteration order. -/
def weeklyEvents (fetch : String → String → String) (gen : String → String) :
    List Subscription → List EmailCall
  | [] => []
  | sub :: rest =>
    if sub.email = "" ∨ sub.domain = "" ∨ sub.role = "" then
      weeklyEvents fetch gen rest
    else
      mkWeeklyCall fetch gen sub :: weeklyEvents fetch gen rest

/-- Embeds `send_weekly_updates` (back.py lines 135-185): missing file or empty
subscription list is a no-op; otherwise the per-subscriber loop runs. The
returned list is the sequence of delivery calls made. -/
def send_weekly_updates (fetch : String → String → String) (gen : String → String)
    (store : Option (List Subscription)) : List EmailCall :=
  match store with
  | none => []
  | some subs => if subs.isEmpty then [] else weeklyEvents fetch gen subs

/-- A JSON response body of the HTTP layer: exactly one key among
`error` / `output` / `message`. -/
inductive ApiResponse where
  | error (msg : String)
  | output (s : String)
  | message (s : String)
deriving DecidableEq, Repr

/-- The on-demand six-section prompt of the `/generate` endpoint
(back.py lines 218-252): the interpolated 8-space-indented f-string, then
`textwrap.dedent` — run after interpolation, so multi-line trend text with
unindented lines leaves the indentation in place. -/
def onDemandPrompt (domain role trends : String) : String :=
  pyDedent
    ("\n        You are a professional AI assistant. Generate a detailed, structured, and actionable intelligence report\n" ++
     "        for a professional who works as a **" ++ role ++ "** in the **" ++ domain ++ "** domain.\n\n" ++
     "        Include the following sections exactly as listed:\n\n" ++
     "        1. Current Trends and Updates\n" ++
     "           - Incorporate these recent trends from the web:\n" ++
     "           " ++ trends ++ "\n" ++
     "           - Emerging technologies, tools, or methods affecting the domain.\n" ++
     "           - Shifts in customer behavior, regulations, or market trends.\n\n" ++
     "        2. Role-Relevant Practices / Tools\n" ++
     "           - Methods, frameworks, or workflows that improve productivity.\n" ++
     "           - Software, platforms, or tools commonly adopted in the field.\n\n" ++
     "        3. AI & Automation Opportunities\n" ++
     "           - Explain how AI or automation is being used to improve efficiency.\n" ++
     "           - For every AI tool mentioned, provide:\n" ++
     "             - Name of the tool\n" ++
     "             - Detailed explanation of its function and purpose\n" ++
     "             - A link where the user can try or explore the tool\n\n" ++
     "        4. Skills & Learning Paths\n" ++
     "           - Core skills everyone in this domain should know.\n" ++
     "           - Emerging skills that give an edge.\n" ++
     "           - Suggested learning resources (courses, articles, tutorials).\n\n" ++
     "        5. Future Outlook\n" ++
     "           - Trends that are likely to shape the domain in the next 1–5 years.\n" ++
     "           - Opportunities and challenges to watch out for.\n\n" ++
     "        6. Actionable Insights\n" ++
     "           - Concrete steps the user can take to stay ahead (learning, networking, experimenting).\n        ")

/-- Result of one `/generate` request: the JSON response plus how many
trend-fetch and generation calls were made downstream. -/
structure GenOutcome where
  response : ApiResponse
  fetchCalls : Nat
  genCalls : Nat
deriving DecidableEq, Repr

/-- Embeds the `/generate` endpoint (back.py lines 203-258): strip both
fields, reject when either is empty, otherwise run fetch → compose → generate. -/
def generateEndpoint (domain role : String) (fetch : String → String → String)
    (gen : String → String) : GenOutcome :=
  let d := stripPy domain
  let r := stripPy role
  if d = "" ∨ r = "" then
    { response := ApiResponse.error "Please provide both 'domain' and 'role'."
      fetchCalls := 0, genCalls := 0 }
  else
    let trends := fetch d r
    let rpt := gen (onDemandPrompt d r trends)
    { response := ApiResponse.output rpt, fetchCalls := 1, genCalls := 1 }

/-- The confirmation email composed by `/subscribe` (back.py lines 296-309):
a plain f-string, never dedented, so the 12-space line indents remain. -/
def confirmationCall (email domain role : String) : EmailCall :=
  let weeklyLink := "http://localhost:8501//weekly-updates?domain=" ++ domain ++ "&role=" ++ role
  { toAddr := email
    subject := "You're subscribed to weekly LARS AI updates!"
    html :=
      "\n            <h3>You're now subscribed to weekly updates 🎯</h3>\n" ++
      "            <p>Every week, you’ll receive a fresh report for:</p>\n" ++
      "            <b>Domain:</b> " ++ domain ++ "<br>\n" ++
      "            <b>Role:</b> " ++ role ++ "<br><br>\n" ++
      "            <a href=\"" ++ weeklyLink ++ "\" style=\"color:white;background:#007bff;padding:10px 20px;text-decoration:none;border-radius:6px;\">\n" ++
      "                View Weekly Report\n" ++
      "            </a>\n" ++
      "            <br><br>\n" ++
      "            <p>Stay ahead with LARS AI 🚀</p>\n            " }

/-- Result of one `/subscribe` request: the JSON response, the resulting
subscriptions-file state, and the delivery calls made. -/
structure SubscribeOutcome where
  response : ApiResponse
  store : Option (List Subscription)
  sends : List EmailCall
deriving DecidableEq, Repr

/-- Embeds the `/subscribe` endpoint (back.py lines 262-319): strip all
fields, reject when both email and phone are empty, otherwise append the
record (load-modify-save) and, only when an email is present, make one
confirmation delivery call whose success `sendOk` decides the message. -/
def subscribeEndpoint (email phone domain role : String)
    (store : Option (List Subscription)) (sendOk : Bool) : SubscribeOutcome :=
  let e := stripPy email
  let p := stripPy phone
  let d := stripPy domain
  let r := stripPy role
  if e = "" ∧ p = "" then
    { response := ApiResponse.error "Please provide at least an email or phone number."
      store := store, sends := [] }
  else
    let newStore := appendSub store { email := e, phone := p, domain := d, role := r }
    if e ≠ "" then
      { response :=
          if sendOk then
            ApiResponse.message ("✅ Subscription successful! Confirmation email sent to " ++ e)
          else
            ApiResponse.message "⚠️ Subscription saved, but failed to send email (check logs)."
        store := newStore
        sends := [confirmationCall e d r] }
    else
      { response := ApiResponse.message "✅ Subscription successful! (no email provided)"
        store := newStore, sends := [] }

/-! ## Theorems settling the claims -/

set_option maxRecDepth 20000

/-- Rendered block of bullet lines, each prefixed by the bullet separator. -/
def bulletBlock : List String → String
  | [] => ""
  | b :: bs => "\n- " ++ b ++ bulletBlock bs

theorem joinPy_cons (x : String) (xs : List String) :
    joinPy "\n- " (x :: xs) = x ++ bulletBlock xs := by
  induction xs generalizing x with
  | nil => simp [joinPy, bulletBlock]
  | cons y ys ih =>
    show x ++ "\n- " ++ joinPy "\n- " (y :: ys) = _
    rw [ih y, bulletBlock, String.append_assoc, String.append_assoc]

/-- C1: the Report Generator is total (every process outcome yields a string,
never an exception): exit code 0 yields the trimmed stdout, a non-zero exit
yields exactly the empty string, timeout and process-not-found yield fixed
non-empty strings, and the timeout warning is distinguishable from the
empty-string outcome. -/
theorem c1_report_generator_outcomes :
    (∀ out err, generate_response_with_ollama (ProcResult.completed 0 out err) = stripPy out) ∧
    (∀ rc out err, rc ≠ 0 → generate_response_with_ollama (ProcResult.completed rc out err) = "") ∧
    generate_response_with_ollama ProcResult.timeoutExpired =
      "⚠️ Timeout reached — model took too long to respond." ∧
    generate_response_with_ollama ProcResult.fileNotFound =
      "❌ Error: 'ollama' not found. Make sure Ollama is installed and running." ∧
    generate_response_with_ollama ProcResult.timeoutExpired ≠ "" ∧
    generate_response_with_ollama ProcResult.fileNotFound ≠ "" := by
  refine ⟨fun out err => ?_, fun rc out err h => ?_, rfl, rfl, by decide, by decide⟩
  · simp [generate_response_with_ollama]
  · simp [generate_response_with_ollama, h]

/-- Witness for C1 at exit code 1 with non-empty stderr. -/
theorem c1_witness :
    generate_response_with_ollama (ProcResult.completed 1 "partial text" "model error") = "" :=
  c1_report_generator_outcomes.2.1 1 "partial text" "model error" (by decide)

/-- C2: classification is first-match-wins over the four prioritized keyword
sets: a title matching set `i` and a lower-priority set `j`, and no set of
higher priority than `i`, renders with set `i`'s template. -/
theorem c2_first_match_priority (title domain role source pmY : String) (i j : Nat)
    (hij : i < j) (hj : j < 4)
    (hi : matchesSet i title = true) (_hlo : matchesSet j title = true)
    (hmin : ∀ k, k < i → matchesSet k title = false) :
    bulletFor domain role source pmY title = renderTemplate i domain role source pmY title := by
  have hbridge : bulletFor domain role source pmY title =
      (if matchesSet 0 title then renderTemplate 0 domain role source pmY title
       else if matchesSet 1 title then renderTemplate 1 domain role source pmY title
       else if matchesSet 2 title then renderTemplate 2 domain role source pmY title
       else if matchesSet 3 title then renderTemplate 3 domain role source pmY title
       else renderTemplate 4 domain role source pmY title) := rfl
  rw [hbridge]
  have hi3 : i < 3 := by omega
  interval_cases i
  · simp [hi]
  · have h0 := hmin 0 (by omega)
    simp [hi, h0]
  · have h0 := hmin 0 (by omega)
    have h1 := hmin 1 (by omega)
    simp [hi, h0, h1]

/-- Witness for C2: a title holding a launch keyword and an event keyword
renders with the launch template. -/
theorem c2_witness :
    bulletFor "Marketing" "Data Analyst" "TechNews" "March 2024" "Launched at the AI summit" =
      renderTemplate 1 "Marketing" "Data Analyst" "TechNews" "March 2024" "Launched at the AI summit" :=
  c2_first_match_priority "Launched at the AI summit" "Marketing" "Data Analyst" "TechNews"
    "March 2024" 1 3 (by decide) (by decide) (by decide) (by decide)
    (fun k hk => by
      rw [Nat.lt_one_iff] at hk
      subst hk
      decide)

theorem loadSubs_foldl_appendSub (recs : List Subscription) (store : Option (List Subscription)) :
    loadSubs (recs.foldl appendSub store) = loadSubs store ++ recs := by
  induction recs generalizing store with
  | nil => simp
  | cons r rs ih =>
    rw [List.foldl_cons, ih (appendSub store r)]
    simp [appendSub, loadSubs, List.append_assoc]

/-- C3: the Subscription Store round-trips losslessly: loading after zero
appends yields the empty sequence, and loading after N whole-file
load-modify-save appends yields exactly the N records in call order. -/
theorem c3_store_roundtrip :
    loadSubs none = [] ∧
    ∀ recs : List Subscription, loadSubs (recs.foldl appendSub none) = recs := by
  refine ⟨rfl, fun recs => ?_⟩
  rw [loadSubs_foldl_appendSub]
  rfl

/-- C4: `send_email` makes at most 2 transport attempts: first success returns
`true` immediately (1 attempt if the first succeeds, exactly 2 if only the
second does); two failures return `false` after exactly 2 attempts. -/
theorem c4_send_email_two_attempts :
    (∀ transport, (send_email transport).2 ≤ 2) ∧
    (∀ transport, transport 0 = true → send_email transport = (true, 1)) ∧
    (∀ transport, transport 0 = false → transport 1 = true →
      send_email transport = (true, 2)) ∧
    (∀ transport, transport 0 = false → transport 1 = false →
      send_email transport = (false, 2)) := by
  have hrange : List.range 2 = [0, 1] := rfl
  refine ⟨fun t => ?_, fun t h0 => ?_, fun t h0 h1 => ?_, fun t h0 h1 => ?_⟩
  · rcases h0 : t 0 <;> rcases h1 : t 1 <;>
      simp [send_email, hrange, sendEmailGo, h0, h1]
  · simp [send_email, hrange, sendEmailGo, h0]
  · simp [send_email, hrange, sendEmailGo, h0, h1]
  · simp [send_email, hrange, sendEmailGo, h0, h1]

/-- Witness for C4: a transport failing once then succeeding gives `(true, 2)`,
one that always fails gives `(false, 2)`. -/
theorem c4_witness :
    send_email (fun k => decide (k = 1)) = (true, 2) ∧
    send_email (fun _ => false) = (false, 2) :=
  ⟨c4_send_email_two_attempts.2.2.1 (fun k => decide (k = 1)) (by decide) (by decide),
   c4_send_email_two_attempts.2.2.2 (fun _ => false) rfl rfl⟩

/-- C9: the Trend Fetcher on an empty article list returns exactly the
literal string "No recent news found." -/
theorem c9_empty_article_list (domain role now : String) :
    fetch_recent_trends domain role now [] = "No recent news found." := rfl

/-- A stored record is eligible for weekly delivery when none of email,
domain, role is empty. -/
def eligibleSub (s : Subscription) : Bool :=
  !(s.email == "" || s.domain == "" || s.role == "")

theorem weeklyEvents_eq_filter_map (fetch : String → String → String) (gen : String → String)
    (subs : List Subscription) :
    weeklyEvents fetch gen subs = (subs.filter eligibleSub).map (mkWeeklyCall fetch gen) := by
  induction subs with
  | nil => rfl
  | cons sub rest ih =>
    by_cases h : sub.email = "" ∨ sub.domain = "" ∨ sub.role = ""
    · have helig : eligibleSub sub = false := by
        simp [eligibleSub]
        tauto
      simp [weeklyEvents, h, helig, ih]
    · have helig : eligibleSub sub = true := by
        simp [eligibleSub]
        tauto
      simp [weeklyEvents, h, helig, ih]

/-- C5: on a weekly firing, every stored subscription with an empty email,
domain or role is skipped, every other one produces its delivery call in
order; in particular for a 3-record store whose middle record has empty role,
records 1 and 3 are processed and record 2 is skipped, without aborting. -/
theorem c5_weekly_skips_incomplete (fetch : String → String → String) (gen : String → String) :
    (∀ subs, send_weekly_updates fetch gen (some subs) =
      (subs.filter eligibleSub).map (mkWeeklyCall fetch gen)) ∧
    (∀ sub1 sub3 e2 p2 d2, eligibleSub sub1 = true → eligibleSub sub3 = true →
      send_weekly_updates fetch gen
          (some [sub1, { email := e2, phone := p2, domain := d2, role := "" }, sub3]) =
        [mkWeeklyCall fetch gen sub1, mkWeeklyCall fetch gen sub3]) := by
  have hmain : ∀ subs, send_weekly_updates fetch gen (some subs) =
      (subs.filter eligibleSub).map (mkWeeklyCall fetch gen) := by
    intro subs
    cases subs with
    | nil => rfl
    | cons sub rest =>
      show weeklyEvents fetch gen (sub :: rest) = _
      exact weeklyEvents_eq_filter_map fetch gen (sub :: rest)
  refine ⟨hmain, fun sub1 sub3 e2 p2 d2 h1 h3 => ?_⟩
  rw [hmain]
  have h2 : eligibleSub { email := e2, phone := p2, domain := d2, role := "" } = false := by
    simp [eligibleSub]
  simp [List.filter, h1, h2, h3]

/-- Witness for C5: the 3-record scenario at a concrete store and concrete
fetch and generation functions. -/
theorem c5_witness :
    send_weekly_updates (fun d r => d ++ " " ++ r) (fun p => p)
        (some [{ email := "a@x.com", phone := "", domain := "Fin", role := "Analyst" },
               { email := "b@x.com", phone := "1", domain := "Fin", role := "" },
               { email := "c@x.com", phone := "", domain := "Tech", role := "Dev" }]) =
      [mkWeeklyCall (fun d r => d ++ " " ++ r) (fun p => p)
         { email := "a@x.com", phone := "", domain := "Fin", role := "Analyst" },
       mkWeeklyCall (fun d r => d ++ " " ++ r) (fun p => p)
         { email := "c@x.com", phone := "", domain := "Tech", role := "Dev" }] :=
  (c5_weekly_skips_incomplete (fun d r => d ++ " " ++ r) (fun p => p)).2
    { email := "a@x.com", phone := "", domain := "Fin", role := "Analyst" }
    { email := "c@x.com", phone := "", domain := "Tech", role := "Dev" }
    "b@x.com" "1" "Fin" (by decide) (by decide)

/-- C6: malformed requests are rejected atomically with a structured error:
`/generate` with an empty-after-strip domain or role answers exactly the
fixed error object with zero downstream calls, and `/subscribe` with both
email and phone empty after strip answers a structured error, leaves the
store unchanged and makes no delivery call. -/
theorem c6_malformed_rejected :
    (∀ domain role fetch gen, stripPy domain = "" ∨ stripPy role = "" →
      generateEndpoint domain role fetch gen =
        { response := ApiResponse.error "Please provide both 'domain' and 'role'."
          fetchCalls := 0, genCalls := 0 }) ∧
    (∀ email phone domain role store sendOk,
      stripPy email = "" → stripPy phone = "" →
      subscribeEndpoint email phone domain role store sendOk =
        { response := ApiResponse.error "Please provide at least an email or phone number."
          store := store, sends := [] }) := by
  constructor
  · intro domain role fetch gen h
    simp only [generateEndpoint]
    rw [if_pos h]
  · intro email phone domain role store sendOk he hp
    simp only [subscribeEndpoint]
    rw [if_pos ⟨he, hp⟩]

/-- Witness for C6 at whitespace-only fields. -/
theorem c6_witness :
    generateEndpoint "   " "Data Analyst" (fun d r => d ++ r) (fun p => p) =
      { response := ApiResponse.error "Please provide both 'domain' and 'role'."
        fetchCalls := 0, genCalls := 0 } ∧
    subscribeEndpoint " " "" "Marketing" "Data Analyst"
        (some [{ email := "a@x.com", phone := "", domain := "Fin", role := "Analyst" }]) true =
      { response := ApiResponse.error "Please provide at least an email or phone number."
        store := some [{ email := "a@x.com", phone := "", domain := "Fin", role := "Analyst" }]
        sends := [] } :=
  ⟨c6_malformed_rejected.1 "   " "Data Analyst" (fun d r => d ++ r) (fun p => p)
     (Or.inl (by decide)),
   c6_malformed_rejected.2 " " "" "Marketing" "Data Analyst"
     (some [{ email := "a@x.com", phone := "", domain := "Fin", role := "Analyst" }]) true
     (by decide) (by decide)⟩

/-- Counterexample to C7 as stated: on a non-empty article list the result
does not begin with the timestamp header — a "\n- " separator precedes it. -/
theorem c7_counterexample :
    beginsWith
      (fetch_recent_trends "Marketing" "Data Analyst" "March 2025"
        [{ title := "New AI tool launched for marketers", source := "TechNews",
           publishedAt := "2024-03-15T00:00:00Z" }])
      "Insights as of March 2025:" = false := by decide

/-- C7 (amended): on a non-empty article list whose dates all parse, the
result is the separator "\n- ", then the header "Insights as of {now}:\n",
then one "\n- "-prefixed bullet per classified article. -/
theorem c7_header_and_bullets (domain role now : String) (articles : List Article)
    (bullets : List String) (hne : articles ≠ [])
    (hok : mapBullets domain role articles = Except.ok bullets) :
    fetch_recent_trends domain role now articles =
      "\n- " ++ ("Insights as of " ++ now ++ ":\n") ++ bulletBlock bullets := by
  cases articles with
  | nil => exact absurd rfl hne
  | cons a rest =>
    show (match fetchTrendsBody domain role now (a :: rest) with
          | Except.ok s => s
          | Except.error e => "Error fetching trends: " ++ e) = _
    have hbody : fetchTrendsBody domain role now (a :: rest) =
        Except.ok ("\n- " ++ joinPy "\n- " (("Insights as of " ++ now ++ ":\n") :: bullets)) := by
      simp only [fetchTrendsBody, List.isEmpty_cons, Bool.false_eq_true, if_false, hok]
    rw [hbody, joinPy_cons]
    simp [String.append_assoc]

/-- Witness for C7 (amended) at a two-article list. -/
theorem c7_witness :
    fetch_recent_trends "Marketing" "Data Analyst" "March 2025"
        [{ title := "Quarterly report", source := "Reuters", publishedAt := "2024-01-05" },
         { title := "Hello world", source := "Blog", publishedAt := "2023-12-31" }] =
      "\n- " ++ ("Insights as of " ++ "March 2025" ++ ":\n") ++
        bulletBlock
          ["A study published in Reuters in January 2024 demonstrated: Quarterly report.",
           "Hello world (Blog, December 2023)"] :=
  c7_header_and_bullets "Marketing" "Data Analyst" "March 2025"
    [{ title := "Quarterly report", source := "Reuters", publishedAt := "2024-01-05" },
     { title := "Hello world", source := "Blog", publishedAt := "2023-12-31" }]
    ["A study published in Reuters in January 2024 demonstrated: Quarterly report.",
     "Hello world (Blog, December 2023)"]
    (by decide) rfl

theorem mapBullets_error (domain role : String) (l : List Article)
    (h : ∃ a ∈ l, ∃ e, parseMonthYear a.publishedAt = Except.error e) :
    ∃ e, mapBullets domain role l = Except.error e := by
  induction l with
  | nil => simp at h
  | cons a rest ih =>
    cases hfa : mkBulletE domain role a with
    | error e => exact ⟨e, by simp [mapBullets, hfa]⟩
    | ok b =>
      rcases h with ⟨w, hw, e, hwe⟩
      rcases List.mem_cons.mp hw with rfl | hwrest
      · exfalso
        rw [mkBulletE, hwe] at hfa
        exact Except.noConfusion hfa
      · rcases ih ⟨w, hwrest, e, hwe⟩ with ⟨e', he'⟩
        exact ⟨e', by simp [mapBullets, hfa, he']⟩

/-- C10 (implicit): one unparseable publishedAt value poisons the whole
fetch — the result is an "Error fetching trends: ..." string and every
already-classified bullet is discarded. -/
theorem c10_parse_error_discards_all (domain role now : String) (articles : List Article)
    (h : ∃ a ∈ articles, ∃ e, parseMonthYear a.publishedAt = Except.error e) :
    ∃ msg, fetch_recent_trends domain role now articles = "Error fetching trends: " ++ msg := by
  rcases mapBullets_error domain role articles h with ⟨e, hmapm⟩
  refine ⟨e, ?_⟩
  cases articles with
  | nil =>
    rcases h with ⟨w, hw, _⟩
    simp at hw
  | cons a rest =>
    show (match fetchTrendsBody domain role now (a :: rest) with
          | Except.ok s => s
          | Except.error e => "Error fetching trends: " ++ e) = _
    have hbody : fetchTrendsBody domain role now (a :: rest) = Except.error e := by
      simp only [fetchTrendsBody, List.isEmpty_cons, Bool.false_eq_true, if_false, hmapm]
    rw [hbody]

/-- Witness for C10: a well-formed first article followed by an article with
an empty publishedAt yields the error result. -/
theorem c10_witness :
    ∃ msg, fetch_recent_trends "Marketing" "Data Analyst" "March 2025"
        [{ title := "Quarterly report", source := "Reuters", publishedAt := "2024-01-05" },
         { title := "Hello world", source := "Blog", publishedAt := "" }] =
      "Error fetching trends: " ++ msg :=
  c10_parse_error_discards_all "Marketing" "Data Analyst" "March 2025"
    [{ title := "Quarterly report", source := "Reuters", publishedAt := "2024-01-05" },
     { title := "Hello world", source := "Blog", publishedAt := "" }]
    ⟨{ title := "Hello world", source := "Blog", publishedAt := "" }, by decide,
     "time data '' does not match format '%Y-%m-%d'", rfl⟩

/-- Counterexample to C8 as stated: a phone-only subscribe request is valid
(phone non-empty), the record is appended, yet zero delivery calls are made
rather than exactly one. -/
theorem c8_counterexample :
    stripPy "9876543210" ≠ "" ∧
    (subscribeEndpoint "" "9876543210" "Marketing" "Data Analyst" none true).store =
      some [{ email := "", phone := "9876543210", domain := "Marketing", role := "Data Analyst" }] ∧
    (subscribeEndpoint "" "9876543210" "Marketing" "Data Analyst" none true).sends.length = 0 := by
  refine ⟨by decide, by decide, by decide⟩

/-- C8 (amended): every valid subscribe request (email or phone non-empty
after strip) appends the stripped record to the store; exactly one
confirmation delivery call is made when the email is non-empty, and none
when only a phone was given. -/
theorem c8_append_and_confirmation (email phone domain role : String)
    (store : Option (List Subscription)) (sendOk : Bool)
    (h : ¬(stripPy email = "" ∧ stripPy phone = "")) :
    (subscribeEndpoint email phone domain role store sendOk).store =
      some (loadSubs store ++
        [{ email := stripPy email, phone := stripPy phone,
           domain := stripPy domain, role := stripPy role }]) ∧
    (stripPy email ≠ "" →
      (subscribeEndpoint email phone domain role store sendOk).sends =
        [confirmationCall (stripPy email) (stripPy domain) (stripPy role)]) ∧
    (stripPy email = "" →
      (subscribeEndpoint email phone domain role store sendOk).sends = []) := by
  by_cases he : stripPy email = ""
  · have hp : stripPy phone ≠ "" := fun hp => h ⟨he, hp⟩
    refine ⟨?_, fun hne => absurd he hne, fun _ => ?_⟩ <;>
      simp [subscribeEndpoint, appendSub, h, he, hp]
  · refine ⟨?_, fun _ => ?_, fun hz => absurd hz he⟩ <;>
      simp [subscribeEndpoint, appendSub, h, he]

/-- Witness for C8 (amended): an email subscribe appends and makes exactly
one confirmation call. -/
theorem c8_witness :
    (subscribeEndpoint "u@x.com" "" "Marketing" "Data Analyst" none true).store =
      some [{ email := "u@x.com", phone := "", domain := "Marketing", role := "Data Analyst" }] ∧
    (subscribeEndpoint "u@x.com" "" "Marketing" "Data Analyst" none true).sends =
      [confirmationCall "u@x.com" "Marketing" "Data Analyst"] := by
  have h := c8_append_and_confirmation "u@x.com" "" "Marketing" "Data Analyst" none true
    (by decide)
  exact ⟨h.1.trans (by decide), (h.2.1 (by decide)).trans (by decide)⟩

end LarsBackend
